import Mathlib

/-!
# Verification of the sports-venue booking core

A shallow embedding of the booking platform's core services
(`BookingService` in `booking.service.ts`, `SlotService` and
`ReviewService` in `slot.service.ts` / `review.service.ts`), together
with theorems settling the specification claims about them.

Modelling conventions:

* The relational store (Prisma/PostgreSQL, schema from
  `prisma/migrations/20251231113433_init/migration.sql`) is a record of
  lists; `findUnique` is `List.find?` on the id, `findMany`/`findFirst`
  with a `where` clause are `List.filter` / `List.find?` with the
  corresponding predicate, and `@default(uuid())` id generation is a
  `nextId` counter.
* JS numbers are modelled as `ℚ`; `Math.round` is `⌊x + 1/2⌋` (JS rounds
  half toward positive infinity).
* Slot times are stored in TEXT columns as wall-clock "HH:MM" strings
  (see the migration: `"startTime" TEXT NOT NULL`); the services compare
  them with the JS string operators `<`, `<=`, `>`, `>=`, i.e. by
  code-unit lexicographic order, which is exactly Lean's `String`
  linear order for these ASCII strings.  We therefore keep them as
  `String`.
* A JS `Date` is `Option ℚ` (epoch milliseconds); `none` is an Invalid
  Date, whose time value is NaN, so every `<`/`>`/`>=` comparison
  involving it is false.
* `ECMA-262` requires a date component in a parseable date-time string,
  and V8's legacy fallback parser also rejects time-only strings (its
  day composer fails when no date field was seen).  Hence
  `new Date("HH:MM")` — which is how the booking service turns a stored
  slot time back into a `Date` — is an Invalid Date.
-/

namespace BookingPlatform

/-! ## Data model (prisma schema) -/

inductive Role
  | USER
  | ADMIN
deriving DecidableEq, Repr

inductive SlotStatus
  | AVAILABLE
  | BOOKED
  | BLOCKED
deriving DecidableEq, Repr

inductive BookingStatus
  | PENDING
  | CONFIRMED
  | CANCELLED
  | COMPLETED
deriving DecidableEq, Repr

inductive PaymentStatus
  | PENDING
  | PAID
  | REFUNDED
  | FAILED
deriving DecidableEq, Repr

/-- A `users` row (fields the modelled services read). -/
structure User where
  id : Nat
  role : Role
deriving DecidableEq, Repr

/-- A `venues` row (fields the modelled services read). -/
structure Venue where
  id : Nat
  pricePerHour : ℚ
deriving DecidableEq, Repr

/-- A `slots` row.  `date` is the DATE column as a calendar-day number;
`startTime`/`endTime` are the TEXT wall-clock "HH:MM" columns, kept as
strings because the services compare them as strings. -/
structure Slot where
  id : Nat
  venueId : Nat
  date : Int
  startTime : String
  endTime : String
  status : SlotStatus
deriving DecidableEq, Repr

/-- A `bookings` row. -/
structure Booking where
  id : Nat
  userId : Nat
  slotId : Nat
  status : BookingStatus
  totalPrice : ℚ
  paymentStatus : PaymentStatus
  refundAmount : Option ℚ
deriving DecidableEq, Repr

/-- A `reviews` row. -/
structure Review where
  id : Nat
  userId : Nat
  venueId : Nat
  rating : Nat
  comment : Option String
deriving DecidableEq, Repr

/-- The database state seen through the Prisma client. -/
structure DB where
  users : List User
  venues : List Venue
  slots : List Slot
  bookings : List Booking
  reviews : List Review
  nextId : Nat
deriving DecidableEq, Repr

/-- `AppError(statusCode, code, message)` from `error.middleware.ts`. -/
structure AppError where
  statusCode : Nat
  code : String
  message : String
deriving DecidableEq, Repr

/-! ## JS number and date primitives -/

/-- JS `Math.round`: round half toward positive infinity. -/
def jsRound (q : ℚ) : Int := ⌊q + 1/2⌋

/-- Rounding to 2 decimals as the services do it: `Math.round(x*100)/100`. -/
def round2 (q : ℚ) : ℚ := (jsRound (q * 100) : ℚ) / 100

/-- `s.split(':')` on the character list of a time string. -/
def splitOnChar (sep : Char) : List Char → List (List Char)
  | [] => [[]]
  | c :: rest =>
    let r := splitOnChar sep rest
    if c = sep then [] :: r
    else
      match r with
      | [] => [[c]]
      | g :: gs => (c :: g) :: gs

/-- JS `Number` on a digit string (the only inputs the services feed it:
"HH" / "MM" pieces of validated time strings). -/
def digitsToNat (cs : List Char) : Nat :=
  cs.foldl (fun n c => n * 10 + (c.toNat - 48)) 0

/-- `const [hours, minutes] = s.split(':').map(Number)` as both
`calculatePrice` and `createBulkSlots` destructure a time string. -/
def parseHourMinute (s : String) : Nat × Nat :=
  match (splitOnChar ':' s.data).map digitsToNat with
  | [h, m] => (h, m)
  | _ => (0, 0)

/-- `hours * 60 + minutes` of a parsed "HH:MM" string. -/
def timeToMinutes (s : String) : Nat :=
  (parseHourMinute s).1 * 60 + (parseHourMinute s).2

/-- The epoch instant (milliseconds) of wall-clock `minutes` on calendar
day `date`, in the server's (fixed-offset) local time zone. -/
def wallClockMs (date : Int) (minutes : Nat) : ℚ :=
  ((date * 1440 + (minutes : Int)) * 60000 : Int)

/-- The value of `new Date(s)` for one of this app's stored slot times: a
bare "HH:MM" wall-clock string.  A conforming ECMA-262 parse requires a
date component and V8's fallback parser rejects time-only strings, so
the result is an Invalid Date (`none`, time value NaN). -/
def newDateOfTimeString (_s : String) : Option ℚ := none

/-- JS `<` on two `Date` values: comparison of time values, false when
either is NaN (Invalid Date). -/
def jsDateLt : Option ℚ → Option ℚ → Bool
  | some a, some b => decide (a < b)
  | _, _ => false

/-- JS `x > c` where `x` may be NaN (`none`). -/
def jsGtQ : Option ℚ → ℚ → Bool
  | some a, b => decide (b < a)
  | none, _ => false

/-- JS `x >= c` where `x` may be NaN (`none`). -/
def jsGeQ : Option ℚ → ℚ → Bool
  | some a, b => decide (b ≤ a)
  | none, _ => false

/-- JS `<` on strings: code-unit lexicographic comparison (executable;
`String.decidableLT` does not reduce in the kernel, so the services are
embedded with this Boolean form and a lemma bridges it to `String`'s
order). -/
def jsLexLtB : List Char → List Char → Bool
  | [], [] => false
  | [], _ :: _ => true
  | _ :: _, [] => false
  | a :: as, b :: bs => decide (a < b) || (a == b && jsLexLtB as bs)

/-- JS `a < b` on strings. -/
def jsStrLtB (a b : String) : Bool := jsLexLtB a.data b.data

/-- JS `a <= b` on strings: `¬(b < a)`, which for the total lexicographic
order is `a < b ∨ a = b`. -/
def jsStrLeB (a b : String) : Bool := jsStrLtB a b || a == b

/-! ## Store lookups -/

def findUser (db : DB) (id : Nat) : Option User :=
  db.users.find? (fun u => decide (u.id = id))

def findVenue (db : DB) (id : Nat) : Option Venue :=
  db.venues.find? (fun v => decide (v.id = id))

def findSlot (db : DB) (id : Nat) : Option Slot :=
  db.slots.find? (fun s => decide (s.id = id))

def findBooking (db : DB) (id : Nat) : Option Booking :=
  db.bookings.find? (fun b => decide (b.id = id))

/-- The slot's bookings with `status: { in: [PENDING, CONFIRMED] }`, the
include-filter used by `checkSlotAvailability`. -/
def activeBookingsFor (db : DB) (slotId : Nat) : List Booking :=
  db.bookings.filter (fun b =>
    decide (b.slotId = slotId ∧
      (b.status = BookingStatus.PENDING ∨ b.status = BookingStatus.CONFIRMED)))

/-! ## BookingService (`booking.service.ts`) -/

/-- The `{available, reason?}` result of `checkSlotAvailability` (the
`slot?` echo of the row is presentation and omitted). -/
structure SlotAvailability where
  available : Bool
  reason : Option String
deriving DecidableEq, Repr

/-- The reason string `Slot is ${slot.status.toLowerCase()}`. -/
def slotStatusLower : SlotStatus → String
  | SlotStatus.AVAILABLE => "available"
  | SlotStatus.BOOKED => "booked"
  | SlotStatus.BLOCKED => "blocked"

/-- `BookingService.checkSlotAvailability(slotId)`: a pure query.  The
checks run in source order: slot missing, status not AVAILABLE, an
active (PENDING/CONFIRMED) booking exists, then the past-slot guard
`new Date(slot.startTime) < new Date()` — whose left side is an Invalid
Date because `slot.startTime` is a bare "HH:MM" string. -/
def checkSlotAvailability (db : DB) (now : ℚ) (slotId : Nat) : SlotAvailability :=
  match findSlot db slotId with
  | none => ⟨false, some "Slot not found"⟩
  | some slot =>
    if slot.status ≠ SlotStatus.AVAILABLE then
      ⟨false, some ("Slot is " ++ slotStatusLower slot.status)⟩
    else if 0 < (activeBookingsFor db slotId).length then
      ⟨false, some "Slot already has an active booking"⟩
    else if jsDateLt (newDateOfTimeString slot.startTime) (some now) then
      ⟨false, some "Cannot book a past slot"⟩
    else
      ⟨true, none⟩

/-- `BookingService.calculatePrice(startTime, endTime, pricePerHour)` on
the stored string-typed times: parse "HH:MM", take the minute span,
divide by 60 and round `durationHours * pricePerHour` to cents. -/
def calculatePrice (startTime endTime : String) (pricePerHour : ℚ) : ℚ :=
  let startTotalMinutes : Int := timeToMinutes startTime
  let endTotalMinutes : Int := timeToMinutes endTime
  let durationMinutes : ℚ := ((endTotalMinutes - startTotalMinutes : Int) : ℚ)
  let durationHours : ℚ := durationMinutes / 60
  round2 (durationHours * pricePerHour)

/-- The read part of `createBooking`, everything before the
`prisma.$transaction` call: re-run the availability check (Conflict on
failure, carrying the reason), re-fetch the slot with its venue and
compute the total price.  The venue row is guaranteed by the foreign
key; its absence would be a crash in the source and is modelled as a
500. -/
def bookingReadPhase (db : DB) (now : ℚ) (slotId : Nat) : Except AppError ℚ :=
  let availability := checkSlotAvailability db now slotId
  if availability.available then
    match findSlot db slotId with
    | none => Except.error ⟨404, "NOT_FOUND", "Slot not found"⟩
    | some slot =>
      match findVenue db slot.venueId with
      | none => Except.error ⟨500, "INTERNAL", "missing venue relation"⟩
      | some venue =>
        Except.ok (calculatePrice slot.startTime slot.endTime venue.pricePerHour)
  else
    Except.error ⟨409, "CONFLICT", availability.reason.getD "Slot is not available"⟩

/-- The `prisma.$transaction` body of `createBooking`, executed
atomically: set the slot's status to BOOKED and insert the new booking
with status PENDING and paymentStatus PENDING. -/
def bookingTransaction (db : DB) (slotId userId : Nat) (totalPrice : ℚ) : DB × Booking :=
  let b : Booking :=
    { id := db.nextId, userId := userId, slotId := slotId,
      status := BookingStatus.PENDING, totalPrice := totalPrice,
      paymentStatus := PaymentStatus.PENDING, refundAmount := none }
  ({ db with
      slots := db.slots.map (fun s =>
        if s.id = slotId then { s with status := SlotStatus.BOOKED } else s),
      bookings := db.bookings ++ [b],
      nextId := db.nextId + 1 },
   b)

/-- `BookingService.createBooking(slotId, userId)`: the read phase
followed by the atomic transaction. -/
def createBooking (db : DB) (now : ℚ) (slotId userId : Nat) :
    Except AppError (DB × Booking) :=
  match bookingReadPhase db now slotId with
  | Except.error e => Except.error e
  | Except.ok totalPrice => Except.ok (bookingTransaction db slotId userId totalPrice)

/-- The `{eligible, percentage, amount, reason}` record returned by
`calculateRefund`. -/
structure RefundInfo where
  eligible : Bool
  percentage : ℚ
  amount : ℚ
  reason : String
deriving DecidableEq, Repr

/-- `BookingService.calculateRefund(slotStartTime, totalPrice)`:
`hoursUntilStart = (slotStartTime.getTime() - now.getTime()) / (1000*60*60)`
(NaN when the Date is invalid, modelled as `none`); percentage 100 for
more than 24 hours, 50 from 12 to 24 hours, otherwise 0; amount is the
percentage of the total price rounded to cents. -/
def calculateRefund (slotStartTime : Option ℚ) (totalPrice : ℚ) (now : ℚ) : RefundInfo :=
  let hoursUntilStart : Option ℚ :=
    slotStartTime.map (fun t => (t - now) / (1000 * 60 * 60))
  let pr : ℚ × String :=
    if jsGtQ hoursUntilStart 24 then
      (100, "Cancelled more than 24 hours before start")
    else if jsGeQ hoursUntilStart 12 then
      (50, "Cancelled 12-24 hours before start")
    else
      (0, "Cancelled less than 12 hours before start")
  { eligible := decide (0 < pr.1), percentage := pr.1,
    amount := round2 (totalPrice * pr.1 / 100), reason := pr.2 }

/-- The `prisma.$transaction` body of `cancelBooking`, executed
atomically: revert the slot to AVAILABLE and update the booking to
CANCELLED with the refund amount, switching paymentStatus to REFUNDED
only when the refund is positive. -/
def cancelTransaction (db : DB) (booking : Booking) (refundAmount : ℚ) : DB × Booking :=
  let updated : Booking :=
    { booking with
        status := BookingStatus.CANCELLED,
        refundAmount := some refundAmount,
        paymentStatus :=
          if 0 < refundAmount then PaymentStatus.REFUNDED else booking.paymentStatus }
  ({ db with
      slots := db.slots.map (fun s =>
        if s.id = booking.slotId then { s with status := SlotStatus.AVAILABLE } else s),
      bookings := db.bookings.map (fun b => if b.id = booking.id then updated else b) },
   updated)

/-- `BookingService.cancelBooking(id, userId, isAdmin)`.  The booking is
fetched with its slot included; the slot row (needed for the refund) is
guaranteed by the foreign key and only dereferenced after the checks, so
its absence is modelled as a 500 at that same point. -/
def cancelBooking (db : DB) (now : ℚ) (id requesterId : Nat) (isAdmin : Bool) :
    Except AppError (DB × Booking) :=
  match findBooking db id with
  | none => Except.error ⟨404, "NOT_FOUND", "Booking not found"⟩
  | some booking =>
    if !isAdmin && decide (booking.userId ≠ requesterId) then
      Except.error ⟨403, "FORBIDDEN", "You can only cancel your own bookings"⟩
    else if booking.status = BookingStatus.CANCELLED then
      Except.error ⟨400, "INVALID_STATUS", "Booking is already cancelled"⟩
    else if booking.status = BookingStatus.COMPLETED then
      Except.error ⟨400, "INVALID_STATUS", "Cannot cancel a completed booking"⟩
    else
      match findSlot db booking.slotId with
      | none => Except.error ⟨500, "INTERNAL", "missing slot relation"⟩
      | some slot =>
        let refundInfo :=
          calculateRefund (newDateOfTimeString slot.startTime) booking.totalPrice now
        Except.ok (cancelTransaction db booking refundInfo.amount)

/-- `BookingService.updateBookingStatus(id, {status})` (admin route):
overwrite the booking's status, additionally setting paymentStatus to
PAID when the new status is CONFIRMED.  No other row is touched. -/
def updateBookingStatus (db : DB) (id : Nat) (status : BookingStatus) :
    Except AppError (DB × Booking) :=
  match findBooking db id with
  | none => Except.error ⟨404, "NOT_FOUND", "Booking not found"⟩
  | some booking =>
    let updated : Booking :=
      { booking with
          status := status,
          paymentStatus :=
            if status = BookingStatus.CONFIRMED then PaymentStatus.PAID
            else booking.paymentStatus }
    Except.ok
      ({ db with bookings := db.bookings.map (fun b => if b.id = id then updated else b) },
       updated)

/-! ## SlotService (`slot.service.ts`) -/

/-- The per-slot interval test inside `SlotService.hasSlotOverlap`: with
`startTimeStr`/`endTimeStr` the candidate's wall-clock strings and `s`
an existing row, report a conflict when
`(startTimeStr < s.endTime && endTimeStr > s.startTime)` or
`(startTimeStr <= s.startTime && endTimeStr >= s.endTime)` — JS string
comparisons on the "HH:MM" TEXT values. -/
def slotTimeConflict (startTimeStr endTimeStr : String) (s : Slot) : Bool :=
  (jsStrLtB startTimeStr s.endTime && jsStrLtB s.startTime endTimeStr) ||
  (jsStrLeB startTimeStr s.startTime && jsStrLeB s.endTime endTimeStr)

/-- The `prisma.slot.findMany` of `hasSlotOverlap`: all slots of the
venue on the date, minus `excludeSlotId` when given. -/
def slotsOnDate (db : DB) (venueId : Nat) (date : Int) (excludeSlotId : Option Nat) :
    List Slot :=
  db.slots.filter (fun s =>
    decide (s.venueId = venueId) && decide (s.date = date) &&
      (match excludeSlotId with
       | some e => decide (s.id ≠ e)
       | none => true))

/-- `SlotService.hasSlotOverlap(venueId, startTime, endTime,
excludeSlotId?)`.  The source receives two `Date`s and decomposes them
into the calendar day (`setHours(0,0,0,0)`) and the wall-clock
`toTimeString().slice(0,5)` strings; the embedding takes that
decomposition (`date`, `startTimeStr`, `endTimeStr`) directly. -/
def hasSlotOverlap (db : DB) (venueId : Nat) (date : Int)
    (startTimeStr endTimeStr : String) (excludeSlotId : Option Nat) : Bool :=
  (slotsOnDate db venueId date excludeSlotId).any (slotTimeConflict startTimeStr endTimeStr)

/-- A `{startTime, endTime}` entry of the `timeSlots` array of
`createBulkSlots`. -/
structure TimeTemplate where
  startTime : String
  endTime : String
deriving DecidableEq, Repr

/-- Zero-padding to two digits, as `Date.prototype.toTimeString` prints
hour and minute fields. -/
def pad2 (n : Nat) : String := if n < 10 then "0" ++ toString n else toString n

/-- `d.toTimeString().slice(0, 5)` for a `Date` whose wall clock reads
`minutes` minutes past midnight: the canonical zero-padded "HH:MM". -/
def toTimeStringHHMM (minutes : Nat) : String :=
  pad2 (minutes / 60 % 24) ++ ":" ++ pad2 (minutes % 60)

/-- One generated slot of `createBulkSlots` for a `(date, template)`
pair (the loop body over `dates × timeSlots`): the row to persist keeps
the date and the template's strings verbatim, and the generation also
computes the candidate's start/end instants (`startTime`/`endTime`
`Date` objects), rolling the end over to the next day when it does not
lie after the start (`if (endTime <= startTime) endTime.setDate(+1)`). -/
structure BulkCandidate where
  venueId : Nat
  date : Int
  startTime : String
  endTime : String
  status : SlotStatus
  startDT : ℚ
  endDT : ℚ
deriving DecidableEq, Repr

def genBulkCandidate (venueId : Nat) (status : SlotStatus) (date : Int)
    (t : TimeTemplate) : BulkCandidate :=
  let sh := parseHourMinute t.startTime
  let eh := parseHourMinute t.endTime
  let startDT := wallClockMs date (sh.1 * 60 + sh.2)
  let endDT0 := wallClockMs date (eh.1 * 60 + eh.2)
  let endDT := if endDT0 ≤ startDT then endDT0 + 86400000 else endDT0
  { venueId := venueId, date := date, startTime := t.startTime, endTime := t.endTime,
    status := status, startDT := startDT, endDT := endDT }

/-- The cartesian product `dates × timeSlots` of generated slots, in
loop order. -/
def bulkCandidates (venueId : Nat) (status : SlotStatus) (dates : List Int)
    (timeSlots : List TimeTemplate) : List BulkCandidate :=
  (dates.map (fun d => timeSlots.map (genBulkCandidate venueId status d))).flatten

/-- The per-candidate overlap check of `createBulkSlots`: the candidate's
parsed times are put back on its date (without rollover) and passed to
`hasSlotOverlap`, which turns them into canonical `toTimeString`
"HH:MM" strings. -/
def bulkOverlapCheck (db : DB) (c : BulkCandidate) : Bool :=
  hasSlotOverlap db c.venueId c.date
    (toTimeStringHHMM (timeToMinutes c.startTime))
    (toTimeStringHHMM (timeToMinutes c.endTime)) none

/-- `SlotService.createBulkSlots(venueId, dates, timeSlots, status?)`.
Venue and acting user must exist and the user must be ADMIN.  Each
generated candidate is checked independently against the stored slots
(the checks of the `Promise.all` batch all read the pre-existing rows);
candidates that overlap are silently skipped (`return null`), the rest
are inserted, and `{created: createdSlots.length, slots}` is returned. -/
def createBulkSlots (db : DB) (venueId : Nat) (dates : List Int)
    (timeSlots : List TimeTemplate) (status? : Option SlotStatus) (userId : Nat) :
    Except AppError (DB × Nat × List Slot) :=
  match findVenue db venueId with
  | none => Except.error ⟨404, "NOT_FOUND", "Venue not found"⟩
  | some _ =>
    match findUser db userId with
    | none => Except.error ⟨404, "NOT_FOUND", "User not found"⟩
    | some user =>
      if user.role ≠ Role.ADMIN then
        Except.error ⟨403, "FORBIDDEN", "Only admin can create slots"⟩
      else
        let slotsToCreate :=
          bulkCandidates venueId (status?.getD SlotStatus.AVAILABLE) dates timeSlots
        let kept := slotsToCreate.filter (fun c => !bulkOverlapCheck db c)
        let newSlots := kept.enum.map (fun p =>
          ({ id := db.nextId + p.1, venueId := p.2.venueId, date := p.2.date,
             startTime := p.2.startTime, endTime := p.2.endTime,
             status := p.2.status } : Slot))
        Except.ok
          ({ db with slots := db.slots ++ newSlots, nextId := db.nextId + newSlots.length },
           newSlots.length, newSlots)

/-! ## ReviewService (`review.service.ts`) -/

/-- `ReviewService.createReview(venueId, rating, comment?)` for acting
user `userId`: NotFound when the venue is absent, Conflict when the user
already reviewed this venue, Forbidden when the user has no COMPLETED
booking whose slot belongs to this venue; otherwise insert the review. -/
def createReview (db : DB) (venueId userId rating : Nat) (comment : Option String) :
    Except AppError (DB × Review) :=
  match findVenue db venueId with
  | none => Except.error ⟨404, "NOT_FOUND", "Venue not found"⟩
  | some _ =>
    match db.reviews.find? (fun r => decide (r.userId = userId ∧ r.venueId = venueId)) with
    | some _ =>
      Except.error ⟨409, "DUPLICATE_REVIEW",
        "You have already reviewed this venue. You can update your existing review."⟩
    | none =>
      match db.bookings.find? (fun b =>
          decide (b.userId = userId) && decide (b.status = BookingStatus.COMPLETED) &&
            (findSlot db b.slotId).any (fun s => decide (s.venueId = venueId))) with
      | none =>
        Except.error ⟨403, "NO_COMPLETED_BOOKING",
          "You must have a completed booking at this venue to leave a review"⟩
      | some _ =>
        let review : Review :=
          { id := db.nextId, userId := userId, venueId := venueId,
            rating := rating, comment := comment }
        Except.ok
          ({ db with reviews := db.reviews ++ [review], nextId := db.nextId + 1 },
           review)

/-! ## Interleaving model for concurrent `createBooking` calls

A `createBooking` request runs its availability check and price read
outside the transaction and never re-validates inside it; its atomic
steps, at the granularity of the `await` boundaries in the source, are
the read phase and the `$transaction` commit.  `raceTwoCreateBookings`
executes the event-loop schedule read₁ read₂ commit₁ commit₂ of two
concurrent calls for the same slot — a schedule the Node runtime can
produce, since both reads are independent queries issued before either
transaction commits. -/

def raceTwoCreateBookings (db : DB) (now : ℚ) (slotId u1 u2 : Nat) :
    DB × Except AppError Booking × Except AppError Booking :=
  match bookingReadPhase db now slotId, bookingReadPhase db now slotId with
  | Except.error e1, Except.error e2 => (db, Except.error e1, Except.error e2)
  | Except.error e1, Except.ok p2 =>
    let r2 := bookingTransaction db slotId u2 p2
    (r2.1, Except.error e1, Except.ok r2.2)
  | Except.ok p1, Except.error e2 =>
    let r1 := bookingTransaction db slotId u1 p1
    (r1.1, Except.ok r1.2, Except.error e2)
  | Except.ok p1, Except.ok p2 =>
    let r1 := bookingTransaction db slotId u1 p1
    let r2 := bookingTransaction r1.1 slotId u2 p2
    (r2.1, Except.ok r1.2, Except.ok r2.2)

/-- Whether a call's result is a success. -/
def isOkB : Except AppError Booking → Bool
  | Except.ok _ => true
  | Except.error _ => false

/-- Projection used to state the cancellation outcome: the updated
booking's `(refundAmount, paymentStatus)` on success. -/
def refundOutcome (r : Except AppError (DB × Booking)) :
    Option (Option ℚ × PaymentStatus) :=
  match r with
  | Except.ok p => some (p.2.refundAmount, p.2.paymentStatus)
  | Except.error _ => none

/-- The `created` count of a bulk-creation result. -/
def bulkCount : Except AppError (DB × Nat × List Slot) → Option Nat
  | Except.ok p => some p.2.1
  | Except.error _ => none

/-- The `slots` list of a bulk-creation result. -/
def bulkSlotsOf : Except AppError (DB × Nat × List Slot) → List Slot
  | Except.ok p => p.2.2
  | Except.error _ => []

/-! ## Concrete states used by the witnesses and counterexamples -/

/-- Venue 1 at 40/hour. -/
def venueA : Venue := ⟨1, 40⟩

/-- An AVAILABLE two-hour slot of venue 1. -/
def slotA : Slot := ⟨1, 1, 20454, "10:00", "12:00", SlotStatus.AVAILABLE⟩

/-- A store with one bookable slot and no bookings. -/
def dbA : DB := ⟨[⟨7, Role.USER⟩, ⟨8, Role.USER⟩], [venueA], [slotA], [], [], 5⟩

/-- An AVAILABLE slot on day 0 (1970-01-01), far in the past. -/
def slotPast : Slot := ⟨1, 1, 0, "10:00", "12:00", SlotStatus.AVAILABLE⟩

/-- A store holding only the long-past slot. -/
def dbPast : DB := ⟨[⟨7, Role.USER⟩], [], [slotPast], [], [], 5⟩

/-- A call instant on day 20000 (deep into 2024), long after `slotPast`
started. -/
def nowPast : ℚ := wallClockMs 20000 600

/-- The booked slot behind the cancellation counterexample. -/
def slotC : Slot := ⟨1, 1, 20454, "10:00", "12:00", SlotStatus.BOOKED⟩

/-- A CONFIRMED, fully paid booking of `slotC` at price 80. -/
def bookingC : Booking := ⟨5, 7, 1, BookingStatus.CONFIRMED, 80, PaymentStatus.PAID, none⟩

/-- A store with one paid confirmed booking. -/
def dbC : DB := ⟨[⟨7, Role.USER⟩], [venueA], [slotC], [bookingC], [], 6⟩

/-- A cancellation instant exactly 25 hours (90000000 ms) before
`slotC`'s wall-clock start on its date. -/
def nowC : ℚ := wallClockMs 20454 600 - 90000000

/-- A PENDING booking of `slotC` used by the cancellation witness. -/
def bookingD : Booking := ⟨5, 7, 1, BookingStatus.PENDING, 80, PaymentStatus.PENDING, none⟩

/-- A store with one pending booking on a booked slot. -/
def dbD : DB := ⟨[⟨7, Role.USER⟩], [venueA], [slotC], [bookingD], [], 6⟩

/-- The stored slot of the overlap witness. -/
def slotE : Slot := ⟨1, 5, 100, "10:00", "12:00", SlotStatus.AVAILABLE⟩

/-- A store with one stored slot for the overlap witness. -/
def dbE : DB := ⟨[], [], [slotE], [], [], 2⟩

/-- The admin acting in the bulk-creation witness. -/
def adminF : User := ⟨9, Role.ADMIN⟩

/-- A store with one pre-existing slot (venue 1, day 20454,
10:00-12:00) that one bulk-generated combination collides with. -/
def dbF : DB := ⟨[⟨7, Role.USER⟩, adminF], [venueA], [slotA], [], [], 10⟩

/-- Three time templates; over two days the first collides with `slotA`
on day 20454. -/
def tmplF : List TimeTemplate := [⟨"10:00", "12:00"⟩, ⟨"12:00", "13:00"⟩, ⟨"13:00", "14:00"⟩]

/-- A COMPLETED booking of user 7 at venue 1 (through `slotC`). -/
def bookingG : Booking := ⟨5, 7, 1, BookingStatus.COMPLETED, 80, PaymentStatus.PAID, none⟩

/-- A store where user 7 has completed a booking at venue 1 and has not
reviewed it yet. -/
def dbG : DB := ⟨[⟨7, Role.USER⟩], [venueA], [slotC], [bookingG], [], 6⟩

/-- A store with a pending booking on a BOOKED slot, for the
admin-status-update witness. -/
def dbH : DB := ⟨[⟨7, Role.USER⟩], [venueA], [slotC], [bookingD], [], 6⟩

/-! ## Helper lemmas -/

/-- The executable lexicographic comparison agrees with `List.Lex`. -/
lemma jsLexLtB_iff (a : List Char) : ∀ b : List Char,
    jsLexLtB a b = true ↔ List.Lex (· < ·) a b := by
  induction a with
  | nil =>
    intro b
    cases b with
    | nil =>
      simp only [jsLexLtB, Bool.false_eq_true, false_iff]
      intro h
      cases h
    | cons c cs =>
      simp only [jsLexLtB, true_iff]
      exact List.Lex.nil
  | cons x xs ih =>
    intro b
    cases b with
    | nil =>
      simp only [jsLexLtB, Bool.false_eq_true, false_iff]
      intro h
      cases h
    | cons y ys =>
      simp only [jsLexLtB, Bool.or_eq_true, Bool.and_eq_true, decide_eq_true_eq,
        beq_iff_eq, ih ys]
      constructor
      · rintro (h | ⟨rfl, h⟩)
        · exact List.Lex.rel h
        · exact List.Lex.cons h
      · intro h
        cases h with
        | rel h => exact Or.inl h
        | cons h => exact Or.inr ⟨rfl, h⟩

/-- The embedded JS string `<` agrees with `String`'s linear order. -/
lemma jsStrLtB_iff (a b : String) : jsStrLtB a b = true ↔ a < b := by
  rw [String.lt_iff_toList_lt]
  rw [show (a.toList < b.toList) = List.Lex (· < ·) a.toList b.toList from rfl]
  exact jsLexLtB_iff a.data b.data

/-- The embedded JS string `<=` agrees with `String`'s linear order.
JS `a <= b` is the negation of `b < a`, which for a total order is
`a < b ∨ a = b`. -/
lemma jsStrLeB_iff (a b : String) : jsStrLeB a b = true ↔ a ≤ b := by
  unfold jsStrLeB
  rw [Bool.or_eq_true, jsStrLtB_iff, beq_iff_eq, le_iff_lt_or_eq]

/-- Rounding a zero amount gives zero. -/
lemma round2_zero : round2 0 = 0 := by
  have h : jsRound 0 = 0 := by
    unfold jsRound
    rw [Int.floor_eq_zero_iff]
    constructor <;> norm_num
  unfold round2
  rw [show ((0 : ℚ) * 100) = 0 by ring, h]
  norm_num

/-- The per-slot test fires exactly on the claimed condition: the
half-open intersection rule or full containment in either direction.
Containment of the candidate in the stored interval is subsumed by the
intersection rule once the candidate is a proper interval. -/
lemma slotTimeConflict_iff (cs ce : String) (s : Slot) (hc : cs < ce) :
    slotTimeConflict cs ce s = true ↔
      ((cs < s.endTime ∧ s.startTime < ce) ∨
       (cs ≤ s.startTime ∧ s.endTime ≤ ce) ∨
       (s.startTime ≤ cs ∧ ce ≤ s.endTime)) := by
  unfold slotTimeConflict
  rw [Bool.or_eq_true, Bool.and_eq_true, Bool.and_eq_true,
    jsStrLtB_iff, jsStrLtB_iff, jsStrLeB_iff, jsStrLeB_iff]
  constructor
  · rintro (⟨h1, h2⟩ | ⟨h1, h2⟩)
    · exact Or.inl ⟨h1, h2⟩
    · exact Or.inr (Or.inl ⟨h1, h2⟩)
  · rintro (⟨h1, h2⟩ | ⟨h1, h2⟩ | ⟨h1, h2⟩)
    · exact Or.inl ⟨h1, h2⟩
    · exact Or.inr ⟨h1, h2⟩
    · exact Or.inl ⟨lt_of_lt_of_le hc h2, lt_of_le_of_lt h1 hc⟩

/-- Proper intervals that only touch at a boundary do not conflict. -/
lemma slotTimeConflict_touching (cs ce : String) (s : Slot) (hc : cs < ce)
    (hs : s.startTime < s.endTime) (h : ce = s.startTime ∨ cs = s.endTime) :
    slotTimeConflict cs ce s = false := by
  rw [← Bool.not_eq_true, slotTimeConflict_iff cs ce s hc]
  rcases h with h | h
  · rintro (⟨h1, h2⟩ | ⟨h1, h2⟩ | ⟨h1, h2⟩)
    · exact absurd (h ▸ h2) (lt_irrefl _)
    · exact absurd (lt_of_lt_of_le hs (h ▸ h2)) (lt_irrefl _)
    · exact absurd (lt_of_lt_of_le (h ▸ hc) h1) (lt_irrefl _)
  · rintro (⟨h1, h2⟩ | ⟨h1, h2⟩ | ⟨h1, h2⟩)
    · exact absurd (h ▸ h1) (lt_irrefl _)
    · exact absurd (lt_of_lt_of_le (h ▸ hs) h1) (lt_irrefl _)
    · exact absurd (lt_of_lt_of_le hc (h ▸ h2)) (lt_irrefl _)

/-- C6: for a proper candidate interval, `hasSlotOverlap` reports an
overlap against the stored slots of the same `(venueId, date)` —
excluding `excludeSlotId` when given — exactly when some such slot
satisfies the half-open intersection rule
`candidateStart < existingEnd ∧ candidateEnd > existingStart` or one
interval fully contains the other; and (second conjunct) a proper
stored interval that only touches the candidate at a boundary
(`candidateEnd = existingStart` or `candidateStart = existingEnd`)
never triggers the per-slot test. -/
theorem hasSlotOverlap_spec (db : DB) (venueId : Nat) (date : Int) (cs ce : String)
    (excl : Option Nat) (hc : cs < ce) :
    (hasSlotOverlap db venueId date cs ce excl = true ↔
      ∃ s ∈ db.slots, s.venueId = venueId ∧ s.date = date ∧
        (∀ e, excl = some e → s.id ≠ e) ∧
        ((cs < s.endTime ∧ s.startTime < ce) ∨
         (cs ≤ s.startTime ∧ s.endTime ≤ ce) ∨
         (s.startTime ≤ cs ∧ ce ≤ s.endTime))) ∧
    (∀ s : Slot, s.startTime < s.endTime → (ce = s.startTime ∨ cs = s.endTime) →
      slotTimeConflict cs ce s = false) := by
  constructor
  · unfold hasSlotOverlap slotsOnDate
    rw [List.any_eq_true]
    constructor
    · rintro ⟨s, hmem, hconf⟩
      rw [List.mem_filter] at hmem
      obtain ⟨hmem, hpred⟩ := hmem
      simp only [Bool.and_eq_true, decide_eq_true_eq] at hpred
      obtain ⟨⟨hv, hd⟩, hex⟩ := hpred
      refine ⟨s, hmem, hv, hd, ?_, (slotTimeConflict_iff cs ce s hc).mp hconf⟩
      intro e he
      rw [he] at hex
      simpa using hex
    · rintro ⟨s, hmem, hv, hd, hex, hcond⟩
      refine ⟨s, ?_, (slotTimeConflict_iff cs ce s hc).mpr hcond⟩
      rw [List.mem_filter]
      refine ⟨hmem, ?_⟩
      simp only [Bool.and_eq_true, decide_eq_true_eq]
      refine ⟨⟨hv, hd⟩, ?_⟩
      cases excl with
      | none => rfl
      | some e => simpa using hex e rfl
  · intro s hs h
    exact slotTimeConflict_touching cs ce s hc hs h

/-- Witness for C6: a candidate 12:00-13:00 against the stored
10:00-12:00 slot of the same venue and date — they touch at 12:00. -/
theorem hasSlotOverlap_spec_witness :
    (("12:00" : String) < "13:00") ∧
    ((hasSlotOverlap dbE 5 100 "12:00" "13:00" none = true ↔
      ∃ s ∈ dbE.slots, s.venueId = 5 ∧ s.date = 100 ∧
        (∀ e, (none : Option Nat) = some e → s.id ≠ e) ∧
        (("12:00" < s.endTime ∧ s.startTime < "13:00") ∨
         ("12:00" ≤ s.startTime ∧ s.endTime ≤ "13:00") ∨
         (s.startTime ≤ "12:00" ∧ "13:00" ≤ s.endTime))) ∧
    (∀ s : Slot, s.startTime < s.endTime → ("13:00" = s.startTime ∨ "12:00" = s.endTime) →
      slotTimeConflict "12:00" "13:00" s = false)) :=
  ⟨(jsStrLtB_iff "12:00" "13:00").mp (by decide),
   hasSlotOverlap_spec dbE 5 100 "12:00" "13:00" none
     ((jsStrLtB_iff "12:00" "13:00").mp (by decide))⟩

/-- C1: `createBooking` re-runs the availability check and fails with a
409 Conflict carrying the availability reason when the slot is
unavailable; otherwise — within the one transaction modelled by
`bookingTransaction`, so both writes happen together — it flips the
slot's status from AVAILABLE (guaranteed by the availability check) to
BOOKED and appends a Booking with status PENDING, paymentStatus PENDING
and `totalPrice = round((endMinutes - startMinutes)/60 × pricePerHour, 2)`.
On the Conflict path no state is produced, so neither write happens. -/
theorem createBooking_spec (db : DB) (now : ℚ) (slotId userId : Nat) :
    (∀ r, checkSlotAvailability db now slotId = ⟨false, some r⟩ →
      createBooking db now slotId userId = Except.error ⟨409, "CONFLICT", r⟩) ∧
    (∀ slot venue, (checkSlotAvailability db now slotId).available = true →
      findSlot db slotId = some slot → findVenue db slot.venueId = some venue →
      slot.status = SlotStatus.AVAILABLE ∧
      ∃ db2 bk, createBooking db now slotId userId = Except.ok (db2, bk) ∧
        bk.status = BookingStatus.PENDING ∧
        bk.paymentStatus = PaymentStatus.PENDING ∧
        bk.totalPrice =
          round2 (((timeToMinutes slot.endTime : ℚ) - (timeToMinutes slot.startTime : ℚ)) / 60
            * venue.pricePerHour) ∧
        bk.userId = userId ∧ bk.slotId = slotId ∧
        db2.slots = db.slots.map (fun s =>
          if s.id = slotId then { s with status := SlotStatus.BOOKED } else s) ∧
        db2.bookings = db.bookings ++ [bk] ∧
        db2.venues = db.venues ∧ db2.users = db.users ∧ db2.reviews = db.reviews) := by
  constructor
  · intro r h
    unfold createBooking bookingReadPhase
    rw [h]
    rfl
  · intro slot venue hav hfs hfv
    have hst : slot.status = SlotStatus.AVAILABLE := by
      by_contra hne
      unfold checkSlotAvailability at hav
      rw [hfs] at hav
      simp [hne] at hav
    refine ⟨hst, ?_⟩
    unfold createBooking bookingReadPhase
    simp only [hav, if_true, hfs, hfv]
    refine ⟨_, _, rfl, rfl, rfl, ?_, rfl, rfl, rfl, rfl, rfl, rfl, rfl⟩
    show calculatePrice slot.startTime slot.endTime venue.pricePerHour = _
    unfold calculatePrice
    push_cast
    ring

/-- Witness for C1: booking the available slot of `dbA`. -/
theorem createBooking_spec_witness :
    (checkSlotAvailability dbA 0 1).available = true ∧
    (slotA.status = SlotStatus.AVAILABLE ∧
      ∃ db2 bk, createBooking dbA 0 1 7 = Except.ok (db2, bk) ∧
        bk.status = BookingStatus.PENDING ∧
        bk.paymentStatus = PaymentStatus.PENDING ∧
        bk.totalPrice =
          round2 (((timeToMinutes slotA.endTime : ℚ) - (timeToMinutes slotA.startTime : ℚ)) / 60
            * venueA.pricePerHour) ∧
        bk.userId = 7 ∧ bk.slotId = 1 ∧
        db2.slots = dbA.slots.map (fun s =>
          if s.id = 1 then { s with status := SlotStatus.BOOKED } else s) ∧
        db2.bookings = dbA.bookings ++ [bk] ∧
        db2.venues = dbA.venues ∧ db2.users = dbA.users ∧ db2.reviews = dbA.reviews) :=
  ⟨by decide, (createBooking_spec dbA 0 1 7).2 slotA venueA (by decide) rfl rfl⟩

/-- C2 fails on the code: `createBooking` runs its availability check
outside the `$transaction` and the transaction neither re-reads the slot
status nor relies on any uniqueness constraint (the `bookings` table has
none on `slotId`).  Under the event-loop schedule read₁ read₂ commit₁
commit₂ — both availability checks before either commit — two calls
racing for the single AVAILABLE slot of `dbA` BOTH succeed, leaving two
active (PENDING) bookings on the one slot, where the claim demands at
most one success and a Conflict for the rest. -/
theorem raceTwoCreateBookings_double_success :
    isOkB (raceTwoCreateBookings dbA 0 1 7 8).2.1 = true ∧
    isOkB (raceTwoCreateBookings dbA 0 1 7 8).2.2 = true ∧
    (activeBookingsFor (raceTwoCreateBookings dbA 0 1 7 8).1 1).length = 2 := by
  refine ⟨by decide, by decide, by decide⟩

/-- C4 fails on the code: the past-slot guard compares
`new Date(slot.startTime) < new Date()`, but `slot.startTime` is a bare
"HH:MM" string, so the left side is an Invalid Date and the comparison
is always false.  `slotPast` starts on day 0 (1970), far before the call
instant `nowPast` (first conjunct), yet `checkSlotAvailability` reports
it available with no reason (second conjunct), where the claim demands
`available: false` for a slot whose start time is in the past. -/
theorem checkSlotAvailability_past_slot :
    wallClockMs slotPast.date (timeToMinutes slotPast.startTime) < nowPast ∧
    checkSlotAvailability dbPast nowPast 1 = ⟨true, none⟩ := by
  constructor
  · rw [show timeToMinutes slotPast.startTime = 600 from by decide]
    unfold wallClockMs nowPast wallClockMs slotPast
    push_cast
    norm_num
  · decide

/-- C3 fails on the code: `cancelBooking` computes the refund from
`new Date(booking.slot.startTime)`, an Invalid Date for the stored
"HH:MM" strings, so `hoursUntilStart` is NaN, every window test is
false and the percentage is always 0.  Cancelling `bookingC` (price 80,
CONFIRMED, paid) exactly 25 hours before its slot's start (first
conjunct) succeeds with `refundAmount = 0` and the payment left PAID,
where the claim demands a 100% refund of 80 marked REFUNDED. -/
theorem cancelBooking_refund_bug :
    (wallClockMs slotC.date (timeToMinutes slotC.startTime) - nowC) / (1000 * 60 * 60) = 25 ∧
    refundOutcome (cancelBooking dbC nowC 5 7 false) =
      some (some 0, PaymentStatus.PAID) := by
  constructor
  · rw [show timeToMinutes slotC.startTime = 600 from by decide]
    unfold wallClockMs nowC wallClockMs slotC
    push_cast
    norm_num
  · have hfb : findBooking dbC 5 = some bookingC := rfl
    have hfs : findSlot dbC bookingC.slotId = some slotC := rfl
    simp only [cancelBooking, hfb, hfs, refundOutcome, cancelTransaction, calculateRefund,
      newDateOfTimeString, Option.map_none', jsGtQ, jsGeQ, bookingC, slotC,
      Bool.not_false, Bool.false_eq_true, if_false, decide_eq_true_eq]
    norm_num [round2_zero]
    simp [show findSlot dbC 1 = some slotC from rfl]

/-- C5: `cancelBooking` fails 404 exactly when the booking is absent;
403 exactly when it exists and the requester is neither owner nor admin;
400 INVALID_STATUS exactly when it exists, the requester is authorized,
and the booking is already CANCELLED or COMPLETED (so any repeated
cancellation keeps failing 400, the state being untouched on errors);
otherwise it atomically reverts the slot to AVAILABLE and updates the
booking to CANCELLED with `refundAmount` the computed refund and
`paymentStatus` REFUNDED exactly when the refund is positive, all other
rows unchanged. -/
theorem cancelBooking_spec (db : DB) (now : ℚ) (id requesterId : Nat) (isAdmin : Bool) :
    (cancelBooking db now id requesterId isAdmin =
        Except.error ⟨404, "NOT_FOUND", "Booking not found"⟩ ↔ findBooking db id = none) ∧
    (cancelBooking db now id requesterId isAdmin =
        Except.error ⟨403, "FORBIDDEN", "You can only cancel your own bookings"⟩ ↔
      ∃ b, findBooking db id = some b ∧ isAdmin = false ∧ b.userId ≠ requesterId) ∧
    ((∃ m, cancelBooking db now id requesterId isAdmin =
        Except.error ⟨400, "INVALID_STATUS", m⟩) ↔
      ∃ b, findBooking db id = some b ∧ (isAdmin = true ∨ b.userId = requesterId) ∧
        (b.status = BookingStatus.CANCELLED ∨ b.status = BookingStatus.COMPLETED)) ∧
    (∀ b slot, findBooking db id = some b → (isAdmin = true ∨ b.userId = requesterId) →
      b.status ≠ BookingStatus.CANCELLED → b.status ≠ BookingStatus.COMPLETED →
      findSlot db b.slotId = some slot →
      ∃ db2 bk, cancelBooking db now id requesterId isAdmin = Except.ok (db2, bk) ∧
        bk.status = BookingStatus.CANCELLED ∧
        bk.refundAmount =
          some (calculateRefund (newDateOfTimeString slot.startTime) b.totalPrice now).amount ∧
        bk.paymentStatus =
          (if 0 < (calculateRefund (newDateOfTimeString slot.startTime) b.totalPrice now).amount
            then PaymentStatus.REFUNDED else b.paymentStatus) ∧
        db2.slots = db.slots.map (fun s =>
          if s.id = b.slotId then { s with status := SlotStatus.AVAILABLE } else s) ∧
        db2.bookings = db.bookings.map (fun bb => if bb.id = b.id then bk else bb) ∧
        db2.venues = db.venues ∧ db2.users = db.users ∧ db2.reviews = db.reviews ∧
        db2.nextId = db.nextId) := by
  cases hfb : findBooking db id with
  | none =>
    have hres : cancelBooking db now id requesterId isAdmin =
        Except.error ⟨404, "NOT_FOUND", "Booking not found"⟩ := by
      simp only [cancelBooking, hfb]
    refine ⟨by simp [hres], by simp [hres], ?_, ?_⟩
    · simp [hres]
    · intro b slot hfb' _ _ _ _
      exact absurd hfb' (by simp)
  | some b =>
    by_cases h1 : (!isAdmin && decide (b.userId ≠ requesterId)) = true
    · -- forbidden branch
      obtain ⟨ha, hne⟩ : isAdmin = false ∧ b.userId ≠ requesterId := by
        simpa only [Bool.and_eq_true, Bool.not_eq_true', decide_eq_true_eq] using h1
      have hres : cancelBooking db now id requesterId isAdmin =
          Except.error ⟨403, "FORBIDDEN", "You can only cancel your own bookings"⟩ := by
        simp only [cancelBooking, hfb, if_pos h1]
      refine ⟨by simp [hres], ?_, ?_, ?_⟩
      · rw [hres]
        exact iff_of_true rfl ⟨b, rfl, ha, hne⟩
      · rw [hres]
        constructor
        · rintro ⟨m, hm⟩
          simp at hm
        · rintro ⟨b', hb', hcond, _⟩
          obtain rfl : b = b' := by injection hb'
          rcases hcond with h | h
          · rw [ha] at h
            exact absurd h (by simp)
          · exact absurd h hne
      · intro b' slot hfb' hauth _ _ _
        obtain rfl : b = b' := by injection hfb'
        rcases hauth with h | h
        · rw [ha] at h
          exact absurd h (by simp)
        · exact absurd h hne
    · -- authorized
      have hc1 : isAdmin = true ∨ b.userId = requesterId := by
        rcases Bool.eq_false_or_eq_true isAdmin with hA | hA
        · exact Or.inl hA
        · right
          by_contra hne
          exact h1 (by simp [hA, hne])
      by_cases h2 : b.status = BookingStatus.CANCELLED
      · have hres : cancelBooking db now id requesterId isAdmin =
            Except.error ⟨400, "INVALID_STATUS", "Booking is already cancelled"⟩ := by
          simp only [cancelBooking, hfb, if_neg h1, if_pos h2]
        refine ⟨by simp [hres], ?_, ?_, ?_⟩
        · rw [hres]
          constructor
          · intro hm
            simp at hm
          · rintro ⟨b', hb', ⟨ha, hne⟩⟩
            obtain rfl : b = b' := by injection hb'
            rcases hc1 with h | h
            · rw [ha] at h
              exact absurd h (by simp)
            · exact absurd h hne
        · rw [hres]
          exact iff_of_true ⟨"Booking is already cancelled", rfl⟩ ⟨b, rfl, hc1, Or.inl h2⟩
        · intro b' slot hfb' _ hnc _ _
          obtain rfl : b = b' := by injection hfb'
          exact absurd h2 hnc
      · by_cases h3 : b.status = BookingStatus.COMPLETED
        · have hres : cancelBooking db now id requesterId isAdmin =
              Except.error ⟨400, "INVALID_STATUS", "Cannot cancel a completed booking"⟩ := by
            simp only [cancelBooking, hfb, if_neg h1, if_neg h2, if_pos h3]
          refine ⟨by simp [hres], ?_, ?_, ?_⟩
          · rw [hres]
            constructor
            · intro hm
              simp at hm
            · rintro ⟨b', hb', ⟨ha, hne⟩⟩
              obtain rfl : b = b' := by injection hb'
              rcases hc1 with h | h
              · rw [ha] at h
                exact absurd h (by simp)
              · exact absurd h hne
          · rw [hres]
            exact iff_of_true ⟨"Cannot cancel a completed booking", rfl⟩ ⟨b, rfl, hc1, Or.inr h3⟩
          · intro b' slot hfb' _ _ hncomp _
            obtain rfl : b = b' := by injection hfb'
            exact absurd h3 hncomp
        · cases hfs : findSlot db b.slotId with
          | none =>
            have hres : cancelBooking db now id requesterId isAdmin =
                Except.error ⟨500, "INTERNAL", "missing slot relation"⟩ := by
              simp only [cancelBooking, hfb, if_neg h1, if_neg h2, if_neg h3, hfs]
            refine ⟨by simp [hres], ?_, ?_, ?_⟩
            · rw [hres]
              constructor
              · intro hm
                simp at hm
              · rintro ⟨b', hb', ⟨ha, hne⟩⟩
                obtain rfl : b = b' := by injection hb'
                rcases hc1 with h | h
                · rw [ha] at h
                  exact absurd h (by simp)
                · exact absurd h hne
            · rw [hres]
              constructor
              · rintro ⟨m, hm⟩
                simp at hm
              · rintro ⟨b', hb', _, hstat⟩
                obtain rfl : b = b' := by injection hb'
                rcases hstat with h | h
                · exact absurd h h2
                · exact absurd h h3
            · intro b' slot hfb' _ _ _ hfs'
              obtain rfl : b = b' := by injection hfb'
              rw [hfs] at hfs'
              exact absurd hfs' (by simp)
          | some slot =>
            have hres : cancelBooking db now id requesterId isAdmin =
                Except.ok (cancelTransaction db b
                  (calculateRefund (newDateOfTimeString slot.startTime) b.totalPrice now).amount) := by
              simp only [cancelBooking, hfb, if_neg h1, if_neg h2, if_neg h3, hfs]
            refine ⟨by simp [hres], ?_, ?_, ?_⟩
            · rw [hres]
              constructor
              · intro hm
                simp at hm
              · rintro ⟨b', hb', ⟨ha, hne⟩⟩
                obtain rfl : b = b' := by injection hb'
                rcases hc1 with h | h
                · rw [ha] at h
                  exact absurd h (by simp)
                · exact absurd h hne
            · rw [hres]
              constructor
              · rintro ⟨m, hm⟩
                simp at hm
              · rintro ⟨b', hb', _, hstat⟩
                obtain rfl : b = b' := by injection hb'
                rcases hstat with h | h
                · exact absurd h h2
                · exact absurd h h3
            · intro b' slot' hfb' _ _ _ hfs'
              obtain rfl : b = b' := by injection hfb'
              rw [hfs] at hfs'
              obtain rfl : slot = slot' := by injection hfs'
              exact ⟨_, _, hres, rfl, rfl, rfl, rfl, rfl, rfl, rfl, rfl, rfl⟩

/-- Witness for C5: user 7 cancels their own PENDING booking in `dbD`. -/
theorem cancelBooking_spec_witness :
    findBooking dbD 5 = some bookingD ∧
    (∃ db2 bk, cancelBooking dbD 0 5 7 false = Except.ok (db2, bk) ∧
      bk.status = BookingStatus.CANCELLED ∧
      bk.refundAmount =
        some (calculateRefund (newDateOfTimeString slotC.startTime) bookingD.totalPrice 0).amount ∧
      bk.paymentStatus =
        (if 0 < (calculateRefund (newDateOfTimeString slotC.startTime) bookingD.totalPrice 0).amount
          then PaymentStatus.REFUNDED else bookingD.paymentStatus) ∧
      db2.slots = dbD.slots.map (fun s =>
        if s.id = bookingD.slotId then { s with status := SlotStatus.AVAILABLE } else s) ∧
      db2.bookings = dbD.bookings.map (fun bb => if bb.id = bookingD.id then bk else bb) ∧
      db2.venues = dbD.venues ∧ db2.users = dbD.users ∧ db2.reviews = dbD.reviews ∧
      db2.nextId = dbD.nextId) :=
  ⟨rfl, (cancelBooking_spec dbD 0 5 7 false).2.2.2 bookingD slotC rfl (Or.inr rfl)
    (by decide) (by decide) rfl⟩

/-- Every generated bulk candidate belongs to the requested venue. -/
lemma bulkCandidates_venueId (v : Nat) (st : SlotStatus) (ds : List Int)
    (ts : List TimeTemplate) : ∀ c ∈ bulkCandidates v st ds ts, c.venueId = v := by
  intro c hc
  simp only [bulkCandidates, List.mem_flatten, List.mem_map] at hc
  obtain ⟨l, ⟨d, hd, rfl⟩, hcl⟩ := hc
  obtain ⟨t, ht, rfl⟩ := List.mem_map.mp hcl
  rfl

/-- The `(date, startTime, endTime)` keys of the inserted rows are the
keys of the surviving candidates, in order (insertion only adds ids). -/
lemma enumFrom_map_key (base : Nat) : ∀ (n0 : Nat) (l : List BulkCandidate),
    ((List.enumFrom n0 l).map (fun p =>
      ({ id := base + p.1, venueId := p.2.venueId, date := p.2.date,
         startTime := p.2.startTime, endTime := p.2.endTime,
         status := p.2.status } : Slot))).map
      (fun s => (s.date, s.startTime, s.endTime)) =
    l.map (fun c => (c.date, c.startTime, c.endTime)) := by
  intro n0 l
  induction l generalizing n0 with
  | nil => rfl
  | cons c cs ih =>
    simp only [List.enumFrom, List.map]
    exact congrArg (List.cons _) (ih (n0 + 1))

/-- The bulk overlap check only reads a candidate's venue, date and
template times. -/
lemma bulkOverlapCheck_congr (db : DB) (c k : BulkCandidate)
    (h1 : c.venueId = k.venueId) (h2 : c.date = k.date)
    (h3 : c.startTime = k.startTime) (h4 : c.endTime = k.endTime) :
    bulkOverlapCheck db c = bulkOverlapCheck db k := by
  unfold bulkOverlapCheck
  rw [h1, h2, h3, h4]

/-- C7: with the venue present and an admin acting, `createBulkSlots`
succeeds (collisions are not errors), returns the created rows together
with their count, inserts exactly the candidates of the cartesian
product `dates × timeSlots` whose independent overlap check against the
stored slots is negative (in order), and every colliding combination is
absent from the result. -/
theorem createBulkSlots_spec (db : DB) (venueId : Nat) (dates : List Int)
    (timeSlots : List TimeTemplate) (status? : Option SlotStatus) (userId : Nat)
    (venue : Venue) (user : User)
    (hv : findVenue db venueId = some venue)
    (hu : findUser db userId = some user) (hadmin : user.role = Role.ADMIN) :
    ∃ db2 created,
      createBulkSlots db venueId dates timeSlots status? userId =
        Except.ok (db2, created.length, created) ∧
      created.map (fun s => (s.date, s.startTime, s.endTime)) =
        ((bulkCandidates venueId (status?.getD SlotStatus.AVAILABLE) dates timeSlots).filter
          (fun c => !bulkOverlapCheck db c)).map (fun c => (c.date, c.startTime, c.endTime)) ∧
      (∀ c ∈ bulkCandidates venueId (status?.getD SlotStatus.AVAILABLE) dates timeSlots,
        bulkOverlapCheck db c = true →
        ∀ s ∈ created, ¬(s.date = c.date ∧ s.startTime = c.startTime ∧ s.endTime = c.endTime)) ∧
      db2.slots = db.slots ++ created := by
  have hkeys :
      (((bulkCandidates venueId (status?.getD SlotStatus.AVAILABLE) dates
          timeSlots).filter (fun c => !bulkOverlapCheck db c)).enum.map (fun p =>
        ({ id := db.nextId + p.1, venueId := p.2.venueId, date := p.2.date,
           startTime := p.2.startTime, endTime := p.2.endTime,
           status := p.2.status } : Slot))).map
        (fun s => (s.date, s.startTime, s.endTime)) =
      ((bulkCandidates venueId (status?.getD SlotStatus.AVAILABLE) dates
          timeSlots).filter (fun c => !bulkOverlapCheck db c)).map
        (fun c => (c.date, c.startTime, c.endTime)) :=
    enumFrom_map_key db.nextId 0 _
  refine ⟨{ db with
      slots := db.slots ++
        (((bulkCandidates venueId (status?.getD SlotStatus.AVAILABLE) dates
            timeSlots).filter (fun c => !bulkOverlapCheck db c)).enum.map (fun p =>
          ({ id := db.nextId + p.1, venueId := p.2.venueId, date := p.2.date,
             startTime := p.2.startTime, endTime := p.2.endTime,
             status := p.2.status } : Slot))),
      nextId := db.nextId +
        (((bulkCandidates venueId (status?.getD SlotStatus.AVAILABLE) dates
            timeSlots).filter (fun c => !bulkOverlapCheck db c)).enum.map (fun p =>
          ({ id := db.nextId + p.1, venueId := p.2.venueId, date := p.2.date,
             startTime := p.2.startTime, endTime := p.2.endTime,
             status := p.2.status } : Slot))).length },
    _, ?_, hkeys, ?_, ?_⟩
  · simp only [createBulkSlots, hv, hu]
    rw [if_neg (by simp [hadmin])]
  · intro c hc hover s hs
    rintro ⟨hd, hst, het⟩
    have hmem : (s.date, s.startTime, s.endTime) ∈
        (((bulkCandidates venueId (status?.getD SlotStatus.AVAILABLE) dates
            timeSlots).filter (fun c => !bulkOverlapCheck db c)).enum.map (fun p =>
          ({ id := db.nextId + p.1, venueId := p.2.venueId, date := p.2.date,
             startTime := p.2.startTime, endTime := p.2.endTime,
             status := p.2.status } : Slot))).map
          (fun s => (s.date, s.startTime, s.endTime)) :=
      List.mem_map_of_mem _ hs
    rw [hkeys] at hmem
    obtain ⟨k, hk, hkey⟩ := List.mem_map.mp hmem
    rw [List.mem_filter] at hk
    obtain ⟨hkc, hkchk⟩ := hk
    have hkd : k.date = c.date := by
      have := congrArg Prod.fst hkey
      simpa using this.trans hd
    have hkst : k.startTime = c.startTime := by
      have := congrArg (fun p => p.2.1) hkey
      simpa using this.trans hst
    have hket : k.endTime = c.endTime := by
      have := congrArg (fun p => p.2.2) hkey
      simpa using this.trans het
    have hsame : bulkOverlapCheck db c = bulkOverlapCheck db k :=
      bulkOverlapCheck_congr db c k
        (by rw [bulkCandidates_venueId _ _ _ _ c hc, bulkCandidates_venueId _ _ _ _ k hkc])
        hkd.symm hkst.symm hket.symm
    rw [hsame] at hover
    rw [hover] at hkchk
    simp at hkchk
  · rfl

/-- Witness for C7: three templates over two days against `dbF`, where
the combination (day 20454, 10:00-12:00) collides with the pre-existing
`slotA`; five slots are created and the collided key is absent. -/
theorem createBulkSlots_spec_witness :
    findVenue dbF 1 = some venueA ∧ findUser dbF 9 = some adminF ∧
    (∃ db2 created,
      createBulkSlots dbF 1 [20454, 20455] tmplF none 9 =
        Except.ok (db2, created.length, created) ∧
      created.map (fun s => (s.date, s.startTime, s.endTime)) =
        ((bulkCandidates 1 ((none : Option SlotStatus).getD SlotStatus.AVAILABLE)
            [20454, 20455] tmplF).filter
          (fun c => !bulkOverlapCheck dbF c)).map (fun c => (c.date, c.startTime, c.endTime)) ∧
      (∀ c ∈ bulkCandidates 1 ((none : Option SlotStatus).getD SlotStatus.AVAILABLE)
          [20454, 20455] tmplF,
        bulkOverlapCheck dbF c = true →
        ∀ s ∈ created, ¬(s.date = c.date ∧ s.startTime = c.startTime ∧ s.endTime = c.endTime)) ∧
      db2.slots = dbF.slots ++ created) ∧
    bulkCount (createBulkSlots dbF 1 [20454, 20455] tmplF none 9) = some 5 ∧
    (bulkSlotsOf (createBulkSlots dbF 1 [20454, 20455] tmplF none 9)).all
      (fun s => !(decide (s.date = (20454 : Int)) && decide (s.startTime = "10:00"))) = true :=
  ⟨rfl, rfl,
   createBulkSlots_spec dbF 1 [20454, 20455] tmplF none 9 venueA adminF rfl rfl rfl,
   by decide, by decide⟩

/-- C8: when a bulk template's end time does not lie after its start
time, the generated slot rolls over to the next day: the candidate's
start instant is on the given date at the template's start time, its
end instant is on the following day at the template's end time, and the
persisted row keeps the date and the template's time strings verbatim
(cross-midnight intervals arise only through this rule). -/
theorem genBulkCandidate_rollover (venueId : Nat) (status : SlotStatus) (date : Int)
    (t : TimeTemplate) (hle : timeToMinutes t.endTime ≤ timeToMinutes t.startTime) :
    (genBulkCandidate venueId status date t).startDT =
      wallClockMs date (timeToMinutes t.startTime) ∧
    (genBulkCandidate venueId status date t).endDT =
      wallClockMs (date + 1) (timeToMinutes t.endTime) ∧
    (genBulkCandidate venueId status date t).date = date ∧
    (genBulkCandidate venueId status date t).startTime = t.startTime ∧
    (genBulkCandidate venueId status date t).endTime = t.endTime := by
  have hcond : wallClockMs date (timeToMinutes t.endTime) ≤
      wallClockMs date (timeToMinutes t.startTime) := by
    unfold wallClockMs
    rw [Int.cast_le]
    have h : (timeToMinutes t.endTime : Int) ≤ (timeToMinutes t.startTime : Int) := by
      exact_mod_cast hle
    omega
  refine ⟨rfl, ?_, rfl, rfl, rfl⟩
  show (if wallClockMs date (timeToMinutes t.endTime) ≤
          wallClockMs date (timeToMinutes t.startTime) then
        wallClockMs date (timeToMinutes t.endTime) + 86400000
      else wallClockMs date (timeToMinutes t.endTime)) =
    wallClockMs (date + 1) (timeToMinutes t.endTime)
  rw [if_pos hcond]
  unfold wallClockMs
  push_cast
  ring

/-- Witness for C8: the template 22:00-01:00 on day 100 ends at 01:00 of
day 101. -/
theorem genBulkCandidate_rollover_witness :
    timeToMinutes "01:00" ≤ timeToMinutes "22:00" ∧
    ((genBulkCandidate 1 SlotStatus.AVAILABLE 100 ⟨"22:00", "01:00"⟩).startDT =
      wallClockMs 100 (timeToMinutes "22:00") ∧
    (genBulkCandidate 1 SlotStatus.AVAILABLE 100 ⟨"22:00", "01:00"⟩).endDT =
      wallClockMs (100 + 1) (timeToMinutes "01:00") ∧
    (genBulkCandidate 1 SlotStatus.AVAILABLE 100 ⟨"22:00", "01:00"⟩).date = 100 ∧
    (genBulkCandidate 1 SlotStatus.AVAILABLE 100 ⟨"22:00", "01:00"⟩).startTime = "22:00" ∧
    (genBulkCandidate 1 SlotStatus.AVAILABLE 100 ⟨"22:00", "01:00"⟩).endTime = "01:00") :=
  ⟨by decide,
   genBulkCandidate_rollover 1 SlotStatus.AVAILABLE 100 ⟨"22:00", "01:00"⟩ (by decide)⟩

/-- The Boolean completed-booking filter of `createReview` holds exactly
when the booking is the user's COMPLETED booking at the venue. -/
lemma completedPred_iff (db : DB) (userId venueId : Nat) (b : Booking) :
    (decide (b.userId = userId) && decide (b.status = BookingStatus.COMPLETED) &&
      (findSlot db b.slotId).any (fun s => decide (s.venueId = venueId))) = true ↔
    (b.userId = userId ∧ b.status = BookingStatus.COMPLETED ∧
      ∃ s, findSlot db b.slotId = some s ∧ s.venueId = venueId) := by
  rw [Bool.and_eq_true, Bool.and_eq_true, decide_eq_true_eq, decide_eq_true_eq]
  cases hfs : findSlot db b.slotId with
  | none => simp [Option.any]
  | some s => simp [Option.any, and_assoc]

/-- C9: `createReview` fails 404 exactly when the venue is absent; 409
DUPLICATE_REVIEW exactly when the venue exists and the user already has
a review for it (so a second review for the same (user, venue) always
fails); 403 NO_COMPLETED_BOOKING exactly when the venue exists, no
duplicate exists and the user has no COMPLETED booking whose slot
belongs to the venue; otherwise the review is inserted. -/
theorem createReview_spec (db : DB) (venueId userId rating : Nat) (comment : Option String) :
    (createReview db venueId userId rating comment =
        Except.error ⟨404, "NOT_FOUND", "Venue not found"⟩ ↔
      findVenue db venueId = none) ∧
    (createReview db venueId userId rating comment =
        Except.error ⟨409, "DUPLICATE_REVIEW",
          "You have already reviewed this venue. You can update your existing review."⟩ ↔
      (∃ v, findVenue db venueId = some v) ∧
        ∃ r ∈ db.reviews, r.userId = userId ∧ r.venueId = venueId) ∧
    (createReview db venueId userId rating comment =
        Except.error ⟨403, "NO_COMPLETED_BOOKING",
          "You must have a completed booking at this venue to leave a review"⟩ ↔
      (∃ v, findVenue db venueId = some v) ∧
        (∀ r ∈ db.reviews, ¬(r.userId = userId ∧ r.venueId = venueId)) ∧
        ¬∃ b ∈ db.bookings, b.userId = userId ∧ b.status = BookingStatus.COMPLETED ∧
          ∃ s, findSlot db b.slotId = some s ∧ s.venueId = venueId) ∧
    ((∃ v, findVenue db venueId = some v) →
      (∀ r ∈ db.reviews, ¬(r.userId = userId ∧ r.venueId = venueId)) →
      (∃ b ∈ db.bookings, b.userId = userId ∧ b.status = BookingStatus.COMPLETED ∧
        ∃ s, findSlot db b.slotId = some s ∧ s.venueId = venueId) →
      ∃ db2 rv, createReview db venueId userId rating comment = Except.ok (db2, rv) ∧
        rv.userId = userId ∧ rv.venueId = venueId ∧ rv.rating = rating ∧
        rv.comment = comment ∧ db2.reviews = db.reviews ++ [rv] ∧
        db2.slots = db.slots ∧ db2.bookings = db.bookings ∧ db2.venues = db.venues ∧
        db2.users = db.users) := by
  cases hv : findVenue db venueId with
  | none =>
    have hres : createReview db venueId userId rating comment =
        Except.error ⟨404, "NOT_FOUND", "Venue not found"⟩ := by
      simp only [createReview, hv]
    refine ⟨by simp [hres], by simp [hres], by simp [hres], ?_⟩
    rintro ⟨v, hv'⟩ _ _
    exact absurd hv' (by simp)
  | some v =>
    cases hdup : db.reviews.find? (fun r => decide (r.userId = userId ∧ r.venueId = venueId)) with
    | some r =>
      have hrmem : r ∈ db.reviews := List.mem_of_find?_eq_some hdup
      have hrp : r.userId = userId ∧ r.venueId = venueId := by
        have := List.find?_some hdup
        rwa [decide_eq_true_eq] at this
      have hres : createReview db venueId userId rating comment =
          Except.error ⟨409, "DUPLICATE_REVIEW",
            "You have already reviewed this venue. You can update your existing review."⟩ := by
        simp only [createReview, hv, hdup]
      refine ⟨by simp [hres], ?_, ?_, ?_⟩
      · rw [hres]
        exact iff_of_true rfl ⟨⟨v, rfl⟩, r, hrmem, hrp⟩
      · rw [hres]
        refine iff_of_false (by intro h; simp at h) ?_
        rintro ⟨_, hnodup, _⟩
        exact hnodup r hrmem hrp
      · intro _ hnodup _
        exact absurd hrp (hnodup r hrmem)
    | none =>
      have hnodup : ∀ r ∈ db.reviews, ¬(r.userId = userId ∧ r.venueId = venueId) := by
        intro r hrmem hrp
        exact (List.find?_eq_none.mp hdup r hrmem) (by rw [decide_eq_true_eq]; exact hrp)
      cases hcb : db.bookings.find? (fun b =>
          decide (b.userId = userId) && decide (b.status = BookingStatus.COMPLETED) &&
            (findSlot db b.slotId).any (fun s => decide (s.venueId = venueId))) with
      | none =>
        have hnob : ¬∃ b ∈ db.bookings, b.userId = userId ∧
            b.status = BookingStatus.COMPLETED ∧
            ∃ s, findSlot db b.slotId = some s ∧ s.venueId = venueId := by
          rintro ⟨b, hbmem, hb⟩
          exact (List.find?_eq_none.mp hcb b hbmem)
            ((completedPred_iff db userId venueId b).mpr hb)
        have hres : createReview db venueId userId rating comment =
            Except.error ⟨403, "NO_COMPLETED_BOOKING",
              "You must have a completed booking at this venue to leave a review"⟩ := by
          simp only [createReview, hv, hdup, hcb]
        refine ⟨by simp [hres], ?_, ?_, ?_⟩
        · rw [hres]
          refine iff_of_false (by intro h; simp at h) ?_
          rintro ⟨_, r, hrmem, hrp⟩
          exact hnodup r hrmem hrp
        · rw [hres]
          exact iff_of_true rfl ⟨⟨v, rfl⟩, hnodup, hnob⟩
        · intro _ _ hb
          exact absurd hb hnob
      | some b =>
        have hbmem : b ∈ db.bookings := List.mem_of_find?_eq_some hcb
        have hbp0 := List.find?_some hcb
        have hbp := (completedPred_iff db userId venueId b).mp hbp0
        have hres : createReview db venueId userId rating comment =
            Except.ok
              ({ db with
                  reviews := db.reviews ++
                    [{ id := db.nextId, userId := userId, venueId := venueId,
                       rating := rating, comment := comment }],
                  nextId := db.nextId + 1 },
               { id := db.nextId, userId := userId, venueId := venueId,
                 rating := rating, comment := comment }) := by
          simp only [createReview, hv, hdup, hcb]
        refine ⟨by simp [hres], ?_, ?_, ?_⟩
        · rw [hres]
          refine iff_of_false (by intro h; simp at h) ?_
          rintro ⟨_, r, hrmem, hrp⟩
          exact hnodup r hrmem hrp
        · rw [hres]
          refine iff_of_false (by intro h; simp at h) ?_
          rintro ⟨_, _, hnob⟩
          exact hnob ⟨b, hbmem, hbp⟩
        · intro _ _ _
          rw [hres]
          exact ⟨_, _, rfl, rfl, rfl, rfl, rfl, rfl, rfl, rfl, rfl, rfl⟩

/-- Witness for C9: user 7, holder of the COMPLETED `bookingG` at
venue 1, successfully reviews it in `dbG`. -/
theorem createReview_spec_witness :
    (∃ v, findVenue dbG 1 = some v) ∧
    (∃ db2 rv, createReview dbG 1 7 5 none = Except.ok (db2, rv) ∧
      rv.userId = 7 ∧ rv.venueId = 1 ∧ rv.rating = 5 ∧
      rv.comment = none ∧ db2.reviews = dbG.reviews ++ [rv] ∧
      db2.slots = dbG.slots ∧ db2.bookings = dbG.bookings ∧ db2.venues = dbG.venues ∧
      db2.users = dbG.users) :=
  ⟨⟨venueA, rfl⟩,
   (createReview_spec dbG 1 7 5 none).2.2.2 ⟨venueA, rfl⟩
     (by intro r hr; cases hr)
     ⟨bookingG, List.mem_cons_self bookingG [], rfl, rfl, slotC, rfl, rfl⟩⟩

/-- C10: the admin `updateBookingStatus` touches only the target booking
row: the slot list — and with it the referenced slot — is returned
unchanged for every target status (in particular a CANCELLED overwrite
does not revert the slot to AVAILABLE, unlike `cancelBooking`), as are
all other tables; on the booking only `status`, and `paymentStatus`
when the target is CONFIRMED, change. -/
theorem updateBookingStatus_frame (db : DB) (id : Nat) (status : BookingStatus)
    (b : Booking) (hfb : findBooking db id = some b) :
    ∃ db2 bk, updateBookingStatus db id status = Except.ok (db2, bk) ∧
      db2.slots = db.slots ∧ db2.venues = db.venues ∧ db2.users = db.users ∧
      db2.reviews = db.reviews ∧ db2.nextId = db.nextId ∧
      db2.bookings = db.bookings.map (fun bb => if bb.id = id then bk else bb) ∧
      bk.status = status ∧ bk.id = b.id ∧ bk.userId = b.userId ∧ bk.slotId = b.slotId ∧
      bk.totalPrice = b.totalPrice ∧ bk.refundAmount = b.refundAmount ∧
      bk.paymentStatus = (if status = BookingStatus.CONFIRMED then PaymentStatus.PAID
        else b.paymentStatus) := by
  simp only [updateBookingStatus, hfb]
  exact ⟨_, _, rfl, rfl, rfl, rfl, rfl, rfl, rfl, rfl, rfl, rfl, rfl, rfl, rfl, rfl⟩

/-- Witness for C10: overwriting `bookingD` to CANCELLED in `dbH` leaves
the BOOKED `slotC` untouched. -/
theorem updateBookingStatus_frame_witness :
    slotC.status = SlotStatus.BOOKED ∧ findBooking dbH 5 = some bookingD ∧
    (∃ db2 bk, updateBookingStatus dbH 5 BookingStatus.CANCELLED = Except.ok (db2, bk) ∧
      db2.slots = dbH.slots ∧ db2.venues = dbH.venues ∧ db2.users = dbH.users ∧
      db2.reviews = dbH.reviews ∧ db2.nextId = dbH.nextId ∧
      db2.bookings = dbH.bookings.map (fun bb => if bb.id = 5 then bk else bb) ∧
      bk.status = BookingStatus.CANCELLED ∧ bk.id = bookingD.id ∧
      bk.userId = bookingD.userId ∧ bk.slotId = bookingD.slotId ∧
      bk.totalPrice = bookingD.totalPrice ∧ bk.refundAmount = bookingD.refundAmount ∧
      bk.paymentStatus =
        (if BookingStatus.CANCELLED = BookingStatus.CONFIRMED then PaymentStatus.PAID
          else bookingD.paymentStatus)) :=
  ⟨rfl, rfl, updateBookingStatus_frame dbH 5 BookingStatus.CANCELLED bookingD rfl⟩

end BookingPlatform
